import Mathlib

/-!
Verification development for the bein execution/dispatch subsystem.

The definitions below are a shallow embedding of the Python sources:

* bein/__init__.py : ProgramOutput, ProgramFailed, unique_filename_in
* bein/prog.py     : the program decorator with its synchronous call,
  the threaded local dispatch with its Future, the LSF batch dispatch
  with its Future, and the nonblocking selector
* bein/exe.py      : the Execution object and the execution context
  manager with its cleanup protocol

Effectful steps (spawning a process, the batch scheduler, the
filesystem) are modelled by explicit environment parameters: a
SpawnResult says what the operating system did when the process was
started, an LsfEnv says what the batch submission did, a listdir
function gives directory contents, and a list of seeds feeds the
random generator. Exceptions are modelled with an explicit error type
and Except.
-/

namespace Bein

/-- Record of one external process run, from ProgramOutput in
bein/__init__.py: return code, pid, argument vector, and captured
stdout and stderr lines, each stream being none when it was redirected
to a file. -/
structure ProgramOutput where
  return_code : Int
  pid : Nat
  arguments : List String
  stdout : Option (List String)
  stderr : Option (List String)
deriving DecidableEq, Repr

/-- The exception taxonomy raised by the embedded code. valueError
models the Python ValueError raised when an executable is missing or
the first argument is not an Execution; preconditionViolation models
the Python SyntaxError raised when a program is invoked on a
terminated Execution; programFailed carries the full ProgramOutput as
in bein/__init__.py; ioError models any other exception, for example
one raised by a return_value transform. -/
inductive BeinError where
  | valueError (msg : String)
  | preconditionViolation (msg : String)
  | programFailed (output : ProgramOutput)
  | ioError (msg : String)
deriving DecidableEq, Repr

/-- State of an Execution from bein/exe.py that the dispatch claims
need: the id (None until the scope is recorded), the working
directory, and the ordered log of reported program outputs. The Python
list self.programs can receive None (the wait method reports
self.program_output even when it was never assigned), so the log holds
Option ProgramOutput. -/
structure Execution where
  id : Option Nat
  working_directory : String
  programs : List (Option ProgramOutput)
deriving DecidableEq, Repr

/-- Execution.report from bein/exe.py: unconditionally append the
given entry to the programs log. -/
def Execution.report (ex : Execution) (p : Option ProgramOutput) : Execution :=
  { ex with programs := ex.programs ++ [p] }

/-- The return_value slot of the dictionary built by a decorated
function: either a fixed value or a callable transform of the
ProgramOutput, which may itself raise. -/
inductive RetPolicy (α : Type) where
  | value (v : α)
  | transform (f : ProgramOutput → Except BeinError α)

/-- The dictionary returned by gen_args in bein/prog.py: the argument
vector to execute and the return value policy. -/
structure Descr (α : Type) where
  arguments : List String
  return_value : RetPolicy α

/-- What the operating system did when subprocess.Popen was called:
either the process ran to completion with a pid, a return code and
stream contents, or Popen raised OSError because the executable is
missing. -/
inductive SpawnResult where
  | ok (pid : Nat) (return_code : Int) (stdout_lines stderr_lines : List String)
  | osError
deriving DecidableEq, Repr

/-- Evaluate the return value policy on a ProgramOutput, exactly the
code shape z = d[return_value]; z(po) if callable(z) else z. -/
def evalPolicy (p : RetPolicy α) (po : ProgramOutput) : Except BeinError α :=
  match p with
  | .value v => .ok v
  | .transform f => f po

/-- Message of the ValueError raised when Popen fails with OSError. -/
def notFoundMsg (prog : String) : String :=
  "Program " ++ prog ++ " does not seem to exist in your $PATH."

/-- Message of the SyntaxError raised on a terminated Execution. -/
def termMsg : String :=
  "Program being called on an execution that has already terminated."

/-- Synchronous invocation, program.__call__ in bein/prog.py. The
stdoutToFile and stderrToFile flags say whether a stdout or stderr
keyword argument redirected that stream to a file. Returns the updated
Execution together with the returned value or the raised error; the
value is an Option because the asynchronous wait can yield the Python
None, and the two entry points are compared in the refinement claims. -/
def programCall (ex : Execution) (d : Descr α) (spawn : SpawnResult)
    (stdoutToFile stderrToFile : Bool) : Execution × Except BeinError (Option α) :=
  if ex.id ≠ none then
    (ex, .error (.preconditionViolation termMsg))
  else
    match spawn with
    | .osError => (ex, .error (.valueError (notFoundMsg (d.arguments.headD ""))))
    | .ok pid rc out err =>
      let stdout_value := if stdoutToFile then none else some out
      let stderr_value := if stderrToFile then none else some err
      let po : ProgramOutput := ⟨rc, pid, d.arguments, stdout_value, stderr_value⟩
      let ex2 := ex.report (some po)
      if rc = 0 then
        match evalPolicy d.return_value po with
        | .ok v => (ex2, .ok (some v))
        | .error e => (ex2, .error e)
      else
        (ex2, .error (.programFailed po))

/-- The Python value stored in the return_value field of the local
Future: the initial None, a computed value, or a caught exception kept
for re-raise at wait time. -/
inductive PyVal (α : Type) where
  | pynone
  | val (v : α)
  | exc (e : BeinError)

/-- The Future built by program._local in bein/prog.py: the
program_output field assigned by the worker thread, and the
return_value field holding None, a value, or a caught exception. -/
structure Future (α : Type) where
  program_output : Option ProgramOutput
  return_value : PyVal α

/-- State of the local Future once the worker thread g of
program._local has finished: the worker spawns the process, builds the
ProgramOutput, and on a zero return code evaluates the return value
policy, catching any exception into return_value. On a nonzero return
code it assigns nothing, so return_value keeps the initial None. When
Popen raises OSError the raised ValueError is caught with
program_output never assigned. -/
def localWorker (d : Descr α) (spawn : SpawnResult)
    (stdoutToFile stderrToFile : Bool) : Future α :=
  match spawn with
  | .osError => ⟨none, .exc (.valueError (notFoundMsg (d.arguments.headD "")))⟩
  | .ok pid rc out err =>
    let stdout_value := if stdoutToFile then none else some out
    let stderr_value := if stderrToFile then none else some err
    let po : ProgramOutput := ⟨rc, pid, d.arguments, stdout_value, stderr_value⟩
    if rc = 0 then
      match evalPolicy d.return_value po with
      | .ok v => ⟨some po, .val v⟩
      | .error e => ⟨some po, .exc e⟩
    else
      ⟨some po, .pynone⟩

/-- The wait method of the local Future: report program_output to the
Execution, then re-raise the stored exception if return_value is an
exception instance, else return the stored value. -/
def Future.waitLocal (f : Future α) (ex : Execution) :
    Execution × Except BeinError (Option α) :=
  let ex2 := ex.report f.program_output
  match f.return_value with
  | .exc e => (ex2, .error e)
  | .val v => (ex2, .ok (some v))
  | .pynone => (ex2, .ok none)

/-- What happened on the LSF side in program._lsf: either some
exception was raised in the worker (during the bsub submission, the
polling loop, or reading the output files), or the submission
completed with a return code and the two redirect files eventually
held the given lines. -/
inductive LsfEnv where
  | workerExc (e : BeinError)
  | completes (pid : Nat) (return_code : Int) (stdout_lines stderr_lines : List String)
deriving DecidableEq, Repr

/-- The bsub command line built by program._lsf: the argument vector
is joined into a shell command redirected to the two generated or
caller supplied file names, wrapped for bash and tcsh compatibility. -/
def bsubCmds (d : Descr α) (remoteWd stdoutFile stderrFile : String) : List String :=
  let remote_cmd := String.intercalate " " d.arguments ++ " > " ++ stdoutFile
  let remote_cmd := " ( " ++ remote_cmd ++ " ) >& " ++ stderrFile
  ["bsub", "-cwd", remoteWd, "-o", "/dev/null", "-e", "/dev/null", "-K", "-r", remote_cmd]

/-- The Future built by program._lsf: its return_value field is only
ever None or a computed value, since the bare except clause of its
worker stores None and re-raises inside the worker thread. -/
structure LsfFuture (α : Type) where
  program_output : Option ProgramOutput
  return_value : Option α

/-- State of the LSF Future once the worker thread g of program._lsf
has finished. loadOut and loadErr say whether the stream files were
generated (and must be read back) or caller supplied redirects. On
any exception, including one raised by the return value transform,
the bare except clause leaves return_value at None; program_output
keeps whatever had been assigned before the exception. -/
def lsfWorker (d : Descr α) (env : LsfEnv) (remoteWd stdoutFile stderrFile : String)
    (loadOut loadErr : Bool) : LsfFuture α :=
  match env with
  | .workerExc _ => ⟨none, none⟩
  | .completes pid rc out err =>
    let stdout_value := if loadOut then some out else none
    let stderr_value := if loadErr then some err else none
    let po : ProgramOutput := ⟨rc, pid, bsubCmds d remoteWd stdoutFile stderrFile,
                               stdout_value, stderr_value⟩
    if rc = 0 then
      match evalPolicy d.return_value po with
      | .ok v => ⟨some po, some v⟩
      | .error _ => ⟨some po, none⟩
    else
      ⟨some po, none⟩

/-- The wait method of the LSF Future: report program_output to the
Execution and return return_value, with no exception check at all. -/
def LsfFuture.waitLsf (f : LsfFuture α) (ex : Execution) :
    Execution × Except BeinError (Option α) :=
  (ex.report f.program_output, .ok f.return_value)

/-- A dispatched asynchronous job: the Future of the local backend or
the Future of the LSF backend. -/
inductive Dispatched (α : Type) where
  | localFut (f : Future α)
  | lsfFut (f : LsfFuture α)

/-- program.nonblocking in bein/prog.py: check the Execution is live,
take the via keyword defaulting to local, and dispatch through _local
or _lsf; any other via value falls off the end of the if chain and
returns the Python None, modelled by Option.none with no error. -/
def nonblocking (ex : Execution) (via : Option String) (d : Descr α)
    (spawn : SpawnResult) (stdoutToFile stderrToFile : Bool)
    (env : LsfEnv) (remoteWd stdoutFile stderrFile : String)
    (loadOut loadErr : Bool) : Except BeinError (Option (Dispatched α)) :=
  if ex.id ≠ none then
    .error (.preconditionViolation termMsg)
  else
    let v := via.getD "local"
    if v = "local" then
      .ok (some (.localFut (localWorker d spawn stdoutToFile stderrToFile)))
    else if v = "lsf" then
      .ok (some (.lsfFut (lsfWorker d env remoteWd stdoutFile stderrFile loadOut loadErr)))
    else
      .ok none

/-- Result of running the body of the with statement: a value or a
raised exception. -/
inductive BodyResult (α : Type) where
  | ok (v : α)
  | raised (e : BeinError)
deriving DecidableEq, Repr

/-- Result of the call lims.write at finalization: an execution id or
a raised exception. -/
inductive WriteResult where
  | ok (execId : Nat)
  | raised (e : BeinError)
deriving DecidableEq, Repr

/-- Rendering of a caught exception, standing for the string built
with traceback.format_exception in bein/exe.py. -/
def formatExc : BeinError → String
  | .valueError m => "ValueError: " ++ m
  | .preconditionViolation m => "SyntaxError: " ++ m
  | .programFailed po => "ProgramFailed: " ++ String.intercalate " " po.arguments
  | .ioError m => "IOError: " ++ m

/-- The exception_string captured by the except clause of the
execution context manager: none when the body completed normally. -/
def bodyTrace : BodyResult α → Option String
  | .ok _ => none
  | .raised e => some (formatExc e)

/-- Observable effects of the execution context manager, in the order
they happen: the working directory is created, the body runs, the
finish timestamp is set, lims.write is called with the optional
failure trace, and the working directory is removed with rmtree. -/
inductive ScopeEvent where
  | mkdir
  | bodyRun
  | finishSet
  | writeCalled (failureTrace : Option String)
  | rmtree
deriving DecidableEq, Repr

/-- Result of one run of the execution context manager: the ordered
effect trace, the finish timestamp, the id assigned to the Execution,
and what propagates to the caller. -/
structure ScopeResult (α : Type) where
  events : List ScopeEvent
  finished_at : Option Nat
  ex_id : Option Nat
  outcome : Except BeinError α

/-- The execution context manager of bein/exe.py: make the working
directory, run the body, capture its exception string if it raised and
schedule the re-raise, then in the finally block set the finish time,
call lims.write when a lims is attached (inside a try whose own
finally removes the working directory), and propagate. A write
exception escapes the finally block and so replaces a body exception;
rmtree runs with ignore_errors and never raises. The lims argument is
none for an execution without an attached MiniLIMS, else it carries
what write will do. now is the clock value used for finished_at. -/
def executionScope (lims : Option WriteResult) (body : BodyResult α) (now : Nat) :
    ScopeResult α :=
  let exception_string := bodyTrace body
  let writeEvents : List ScopeEvent :=
    match lims with
    | none => []
    | some _ => [.writeCalled exception_string]
  let assignedId : Option Nat :=
    match lims with
    | some (.ok i) => some i
    | _ => none
  let outcome : Except BeinError α :=
    match lims with
    | some (.raised we) => .error we
    | _ =>
      match body with
      | .raised e => .error e
      | .ok v => .ok v
  { events := [.mkdir, .bodyRun, .finishSet] ++ writeEvents ++ [.rmtree]
    finished_at := some now
    ex_id := assignedId
    outcome := outcome }

/-- Python startswith: the second string is a prefix of the first. -/
def startswith (s pre : String) : Bool :=
  pre.data.isPrefixOf s.data

/-- The alphabet string.letters ++ string.digits used by
unique_filename_in in bein/__init__.py. -/
def alphabet : List Char :=
  "abcdefghijklmnopqrstuvwxyzABCDEFGHIJKLMNOPQRSTUVWXYZ0123456789".data

/-- The inner random_string of unique_filename_in: twenty characters
chosen from the alphabet; the seed list gives the random choices as
indices into the alphabet. -/
def random_string (seed : List Nat) : String :=
  String.mk ((List.range 20).map fun i => alphabet.getD (seed.getD i 0 % alphabet.length) 'a')

/-- The retry loop of unique_filename_in: generate a candidate from
the next seed, keep it when no entry of the directory listing starts
with it, else retry with the remaining seeds; none models running out
of randomness, which the unbounded Python loop never does. -/
def firstUnique (files : List String) : List (List Nat) → Option String
  | [] => none
  | s :: rest =>
    let filename := random_string s
    if files.filter (fun f => startswith f filename) = [] then some filename
    else firstUnique files rest

/-- unique_filename_in from bein/__init__.py: the path argument
defaults to None, in which case the process wide current working
directory os.getcwd() is consulted instead; listdir models
os.listdir. -/
def unique_filename_in (path : Option String) (cwd : String)
    (listdir : String → List String) (seeds : List (List Nat)) : Option String :=
  let p := match path with
    | none => cwd
    | some q => q
  firstUnique (listdir p) seeds

/-- C4: a synchronous invocation whose process exits with a nonzero
status raises ProgramFailed carrying the full outcome (arguments,
captured streams, exit status), and that outcome has already been
appended to the log of the Execution at the moment the error is
raised. -/
theorem nonzero_exit_logged_then_raised (α : Type) (ex : Execution) (d : Descr α)
    (pid : Nat) (rc : Int) (out err : List String) (so se : Bool)
    (hid : ex.id = none) (hrc : rc ≠ 0) :
    (programCall ex d (SpawnResult.ok pid rc out err) so se).2 =
      .error (.programFailed ⟨rc, pid, d.arguments,
        if so then none else some out, if se then none else some err⟩) ∧
    (programCall ex d (SpawnResult.ok pid rc out err) so se).1.programs =
      ex.programs ++ [some ⟨rc, pid, d.arguments,
        if so then none else some out, if se then none else some err⟩] := by
  simp [programCall, Execution.report, hid, hrc]

theorem nonzero_exit_logged_then_raised_witness :
    (⟨none, "wd", []⟩ : Execution).id = none ∧ (1 : Int) ≠ 0 ∧
    (programCall (⟨none, "wd", []⟩ : Execution)
        (⟨["false"], RetPolicy.value (7 : Nat)⟩ : Descr Nat)
        (SpawnResult.ok 42 1 [] ["oops"]) false false).2 =
      .error (.programFailed ⟨1, 42, ["false"],
        if false then none else some [], if false then none else some ["oops"]⟩) :=
  ⟨rfl, by decide,
   (nonzero_exit_logged_then_raised Nat ⟨none, "wd", []⟩
      ⟨["false"], RetPolicy.value 7⟩ 42 1 [] ["oops"] false false rfl
      (by decide)).1⟩

/-- C5: a missing executable raises a condition (the ValueError of the
source, a distinct constructor from programFailed) with the Execution
returned unchanged, so nothing is appended to the log and no
ProgramOutput exists; in the threaded worker the same condition is
captured with the program_output field never assigned. -/
theorem missing_executable_distinct_and_unlogged (α : Type) (ex : Execution)
    (d : Descr α) (so se : Bool) (hid : ex.id = none) :
    programCall ex d SpawnResult.osError so se =
      (ex, .error (.valueError (notFoundMsg (d.arguments.headD "")))) ∧
    localWorker d SpawnResult.osError so se =
      ⟨none, .exc (.valueError (notFoundMsg (d.arguments.headD "")))⟩ ∧
    ∀ po, BeinError.valueError (notFoundMsg (d.arguments.headD "")) ≠
      BeinError.programFailed po := by
  refine ⟨?_, rfl, fun po h => BeinError.noConfusion h⟩
  simp [programCall, hid]

theorem missing_executable_distinct_and_unlogged_witness :
    (⟨none, "wd", []⟩ : Execution).id = none ∧
    programCall (⟨none, "wd", []⟩ : Execution)
        (⟨["nosuchprog"], RetPolicy.value (0 : Nat)⟩ : Descr Nat)
        SpawnResult.osError false false =
      (⟨none, "wd", []⟩, .error (.valueError (notFoundMsg "nosuchprog"))) :=
  ⟨rfl,
   (missing_executable_distinct_and_unlogged Nat ⟨none, "wd", []⟩
      ⟨["nosuchprog"], RetPolicy.value 0⟩ false false rfl).1⟩

/-- C7: invoking a program, synchronously or through nonblocking, on
an Execution whose id is already set raises the precondition violation
(the SyntaxError of the source) with the Execution unchanged: no
process is dispatched and nothing is appended to the log. -/
theorem terminated_execution_rejected (α : Type) (ex : Execution) (d : Descr α)
    (i : Nat) (spawn : SpawnResult) (so se : Bool) (via : Option String)
    (env : LsfEnv) (rwd sf ef : String) (lo le : Bool)
    (hid : ex.id = some i) :
    programCall ex d spawn so se = (ex, .error (.preconditionViolation termMsg)) ∧
    nonblocking ex via d spawn so se env rwd sf ef lo le =
      .error (.preconditionViolation termMsg) := by
  constructor
  · simp [programCall, hid]
  · simp [nonblocking, hid]

theorem terminated_execution_rejected_witness :
    (⟨some 9, "wd", []⟩ : Execution).id = some 9 ∧
    programCall (⟨some 9, "wd", []⟩ : Execution)
        (⟨["touch", "f"], RetPolicy.value (0 : Nat)⟩ : Descr Nat)
        (SpawnResult.ok 1 0 [] []) false false =
      (⟨some 9, "wd", []⟩, .error (.preconditionViolation termMsg)) :=
  ⟨rfl,
   (terminated_execution_rejected Nat ⟨some 9, "wd", []⟩ ⟨["touch", "f"], RetPolicy.value 0⟩
      9 (SpawnResult.ok 1 0 [] []) false false none (LsfEnv.workerExc (.ioError "x"))
      "rwd" "o" "e" true true rfl).1⟩

/-- C10: a nonblocking call on a live Execution with a via keyword
that is neither local nor lsf returns the Python None (here Option
none) with no error raised and no Future dispatched. -/
theorem unknown_via_yields_none (α : Type) (ex : Execution) (d : Descr α)
    (s : String) (spawn : SpawnResult) (so se : Bool) (env : LsfEnv)
    (rwd sf ef : String) (lo le : Bool)
    (hid : ex.id = none) (h1 : s ≠ "local") (h2 : s ≠ "lsf") :
    nonblocking ex (some s) d spawn so se env rwd sf ef lo le = .ok none := by
  simp [nonblocking, hid, h1, h2]

theorem unknown_via_yields_none_witness :
    (⟨none, "wd", []⟩ : Execution).id = none ∧ "sge" ≠ "local" ∧ "sge" ≠ "lsf" ∧
    nonblocking (⟨none, "wd", []⟩ : Execution) (some "sge")
        (⟨["touch", "f"], RetPolicy.value (0 : Nat)⟩ : Descr Nat)
        (SpawnResult.ok 1 0 [] []) false false (LsfEnv.workerExc (.ioError "x"))
        "rwd" "o" "e" true true = .ok none :=
  ⟨rfl, by decide, by decide,
   unknown_via_yields_none Nat ⟨none, "wd", []⟩ ⟨["touch", "f"], RetPolicy.value 0⟩
      "sge" (SpawnResult.ok 1 0 [] []) false false (LsfEnv.workerExc (.ioError "x"))
      "rwd" "o" "e" true true rfl (by decide) (by decide)⟩

/-- The worker thread of program._lsf encountered an exception: either
the submission, polling or file reading raised, or the return value
transform raised after a zero return code. -/
def lsfWorkerFailed (d : Descr α) (env : LsfEnv) (remoteWd stdoutFile stderrFile : String)
    (loadOut loadErr : Bool) : Prop :=
  (∃ e, env = .workerExc e) ∨
  (∃ pid out err e, env = .completes pid 0 out err ∧
    evalPolicy d.return_value
      ⟨0, pid, bsubCmds d remoteWd stdoutFile stderrFile,
       if loadOut then some out else none,
       if loadErr then some err else none⟩ = .error e)

/-- C6: whenever the LSF worker encountered any exception during
submission or result computation, the wait method of the returned
Future does not re-raise it: the failure value is discarded and wait
yields the Python None, never an error and never a value. -/
theorem lsf_wait_suppresses_failure (α : Type) (ex : Execution) (d : Descr α)
    (env : LsfEnv) (rwd sf ef : String) (lo le : Bool)
    (h : lsfWorkerFailed d env rwd sf ef lo le) :
    ((lsfWorker d env rwd sf ef lo le).waitLsf ex).2 = .ok none := by
  rcases h with ⟨e, rfl⟩ | ⟨pid, out, err, e, rfl, htrans⟩
  · rfl
  · simp [lsfWorker, LsfFuture.waitLsf, htrans]

theorem lsf_wait_suppresses_failure_witness :
    lsfWorkerFailed (⟨["touch", "f"], RetPolicy.value (0 : Nat)⟩ : Descr Nat)
      (LsfEnv.workerExc (.ioError "bsub blew up")) "rwd" "o" "e" true true ∧
    ((lsfWorker (⟨["touch", "f"], RetPolicy.value (0 : Nat)⟩ : Descr Nat)
        (LsfEnv.workerExc (.ioError "bsub blew up")) "rwd" "o" "e" true true).waitLsf
      ⟨none, "wd", []⟩).2 = .ok none :=
  ⟨Or.inl ⟨.ioError "bsub blew up", rfl⟩,
   lsf_wait_suppresses_failure Nat ⟨none, "wd", []⟩ ⟨["touch", "f"], RetPolicy.value 0⟩
      (LsfEnv.workerExc (.ioError "bsub blew up")) "rwd" "o" "e" true true
      (Or.inl ⟨.ioError "bsub blew up", rfl⟩)⟩

/-- C1: divergence of the threaded local dispatch from the synchronous
call at a nonzero exit status. On the binding with arguments false and
a fixed return value, with the process exiting with status 1, the
synchronous call raises ProgramFailed carrying the outcome, but the
worker of the local Future never raises ProgramFailed: on a nonzero
return code it leaves return_value at the initial None, so wait
returns the Python None instead of re-raising the failure. -/
theorem local_wait_nonzero_exit_divergence :
    (programCall (⟨none, "wd", []⟩ : Execution)
        (⟨["false"], RetPolicy.value (0 : Nat)⟩ : Descr Nat)
        (SpawnResult.ok 100 1 [] []) false false).2 =
      .error (.programFailed ⟨1, 100, ["false"], some [], some []⟩) ∧
    ((localWorker (⟨["false"], RetPolicy.value (0 : Nat)⟩ : Descr Nat)
        (SpawnResult.ok 100 1 [] []) false false).waitLocal
      (⟨none, "wd", []⟩ : Execution)).2 = .ok none :=
  ⟨rfl, rfl⟩

/-- C2 counterexample: calling wait twice on the same local Future
appends the associated outcome to the Execution log twice, not once.
The Future comes from a successful echo dispatch; after two wait calls
the log holds two entries, refuting the claim that the append happens
exactly once no matter how many times wait is called. -/
theorem wait_twice_duplicates_log_entry :
    (Future.waitLocal
        (localWorker (⟨["echo", "x"], RetPolicy.value (5 : Nat)⟩ : Descr Nat)
          (SpawnResult.ok 7 0 ["x"] []) false false)
        (Future.waitLocal
          (localWorker (⟨["echo", "x"], RetPolicy.value (5 : Nat)⟩ : Descr Nat)
            (SpawnResult.ok 7 0 ["x"] []) false false)
          ⟨none, "wd", []⟩).1).1.programs.length = 2 ∧
    ¬ ((Future.waitLocal
        (localWorker (⟨["echo", "x"], RetPolicy.value (5 : Nat)⟩ : Descr Nat)
          (SpawnResult.ok 7 0 ["x"] []) false false)
        (Future.waitLocal
          (localWorker (⟨["echo", "x"], RetPolicy.value (5 : Nat)⟩ : Descr Nat)
            (SpawnResult.ok 7 0 ["x"] []) false false)
          ⟨none, "wd", []⟩).1).1.programs.length = 1) :=
  ⟨rfl, by decide⟩

/-- C2 amended: every call to wait, on the local Future and on the LSF
Future alike, appends the stored program output to the Execution log
exactly once per call, so the outcome is recorded exactly once only
when wait is called exactly once. -/
theorem wait_appends_once_per_call (α : Type) (f : Future α) (g : LsfFuture α)
    (ex ex2 : Execution) :
    (f.waitLocal ex).1.programs = ex.programs ++ [f.program_output] ∧
    (g.waitLsf ex2).1.programs = ex2.programs ++ [g.program_output] := by
  constructor
  · cases h : f.return_value <;> simp [Future.waitLocal, Execution.report, h]
  · rfl

/-- C3: on every exit path of the execution context manager with an
attached repository, the finish timestamp is set, the write call of
the repository is made with the failure trace of the body, and the
working directory removal happens exactly once, strictly after the
body and after the write call; when write itself raises, that failure
still propagates after the removal, and when only the body raised,
the body failure propagates. -/
theorem scope_cleanup_on_every_exit (α : Type) (w : WriteResult) (body : BodyResult α)
    (now : Nat) :
    (executionScope (some w) body now).finished_at = some now ∧
    (executionScope (some w) body now).events.count ScopeEvent.rmtree = 1 ∧
    (∃ pre, (executionScope (some w) body now).events = pre ++ [ScopeEvent.rmtree] ∧
      ScopeEvent.rmtree ∉ pre ∧ ScopeEvent.mkdir ∈ pre ∧
      ScopeEvent.bodyRun ∈ pre ∧ ScopeEvent.writeCalled (bodyTrace body) ∈ pre) ∧
    (∀ we, w = .raised we → (executionScope (some w) body now).outcome = .error we) ∧
    (∀ e i, body = .raised e → w = .ok i →
      (executionScope (some w) body now).outcome = .error e) := by
  refine ⟨rfl, ?_, ?_, ?_, ?_⟩
  · simp [executionScope]
  · refine ⟨[ScopeEvent.mkdir, ScopeEvent.bodyRun, ScopeEvent.finishSet,
      ScopeEvent.writeCalled (bodyTrace body)], rfl, by simp, by simp, by simp, by simp⟩
  · rintro we rfl
    rfl
  · rintro e i rfl rfl
    rfl

theorem scope_cleanup_on_every_exit_witness :
    (executionScope (some (WriteResult.raised (BeinError.ioError "db locked")))
      (BodyResult.ok (5 : Nat)) 3).outcome = .error (BeinError.ioError "db locked") ∧
    (executionScope (some (WriteResult.raised (BeinError.ioError "db locked")))
      (BodyResult.ok (5 : Nat)) 3).events.count ScopeEvent.rmtree = 1 :=
  ⟨(scope_cleanup_on_every_exit Nat (WriteResult.raised (BeinError.ioError "db locked"))
      (BodyResult.ok 5) 3).2.2.2.1 (BeinError.ioError "db locked") rfl,
   (scope_cleanup_on_every_exit Nat (WriteResult.raised (BeinError.ioError "db locked"))
      (BodyResult.ok 5) 3).2.1⟩

/-- Every candidate produced by random_string has exactly twenty
characters. -/
theorem random_string_length (seed : List Nat) : (random_string seed).length = 20 := by
  simp [random_string, String.length]

/-- Every character of a candidate produced by random_string is drawn
from the alphanumeric alphabet. -/
theorem random_string_chars (seed : List Nat) :
    ∀ ch ∈ (random_string seed).data, ch ∈ alphabet := by
  intro ch hch
  simp only [random_string, List.mem_map, List.mem_range] at hch
  obtain ⟨i, hi, rfl⟩ := hch
  have hlt : seed.getD i 0 % alphabet.length < alphabet.length :=
    Nat.mod_lt _ (by decide)
  have h2 : alphabet.getD (seed.getD i 0 % alphabet.length) 'a' =
      alphabet[seed.getD i 0 % alphabet.length] := by
    rw [List.getD_eq_getElem?_getD, List.getElem?_eq_getElem hlt]
    rfl
  rw [h2]
  exact List.getElem_mem hlt

/-- C8: whenever the retry loop of unique_filename_in returns a name,
that name has exactly twenty characters drawn from the alphanumeric
alphabet, and no existing entry of the directory starts with it;
colliding candidates are skipped and generation retried until the
uniqueness check passes. -/
theorem unique_name_contract (files : List String) (seeds : List (List Nat))
    (c : String) (h : firstUnique files seeds = some c) :
    c.length = 20 ∧ (∀ ch ∈ c.data, ch ∈ alphabet) ∧
      ∀ f ∈ files, startswith f c = false := by
  induction seeds with
  | nil => simp [firstUnique] at h
  | cons s rest ih =>
    by_cases hf : files.filter (fun f => startswith f (random_string s)) = []
    · simp only [firstUnique, hf, if_pos, Option.some.injEq] at h
      subst h
      refine ⟨random_string_length s, random_string_chars s, ?_⟩
      intro f hfmem
      have hnot := List.filter_eq_nil_iff.mp hf f hfmem
      simpa using hnot
    · simp only [firstUnique, hf, if_neg, if_false] at h
      exact ih h

theorem unique_name_contract_witness :
    firstUnique ["boris"] [[]] = some "aaaaaaaaaaaaaaaaaaaa" ∧
    ("aaaaaaaaaaaaaaaaaaaa".length = 20 ∧
      (∀ ch ∈ "aaaaaaaaaaaaaaaaaaaa".data, ch ∈ alphabet) ∧
      ∀ f ∈ ["boris"], startswith f "aaaaaaaaaaaaaaaaaaaa" = false) :=
  ⟨by decide, unique_name_contract ["boris"] [[]] "aaaaaaaaaaaaaaaaaaaa" (by decide)⟩

/-- C9 counterexample: calling unique_filename_in with the path
argument omitted (the Python default None) is accepted and consults
the ambient current working directory: with identical explicit
arguments, two different ambient directories give two different
names, so generation does default to process wide ambient state. -/
theorem unique_filename_in_uses_ambient_cwd :
    unique_filename_in none "/a"
        (fun dir => if dir = "/a" then ["aaaaaaaaaaaaaaaaaaaa"] else []) [[], [1]] ≠
      unique_filename_in none "/b"
        (fun dir => if dir = "/a" then ["aaaaaaaaaaaaaaaaaaaa"] else []) [[], [1]] := by
  decide

/-- C9 amended: unique_filename_in takes an optional directory
argument; when the argument is omitted it defaults to the process
wide current working directory, behaving exactly as if that directory
had been passed explicitly. -/
theorem unique_filename_in_defaults_to_cwd (cwd : String)
    (listdir : String → List String) (seeds : List (List Nat)) :
    unique_filename_in none cwd listdir seeds = firstUnique (listdir cwd) seeds ∧
    unique_filename_in none cwd listdir seeds =
      unique_filename_in (some cwd) cwd listdir seeds :=
  ⟨rfl, rfl⟩

end Bein
